import Mathlib

/-!
Shallow embedding of `src/examples/lightsc.py` (the `LightsClient` JSON-RPC
client): JSON values, the transport exchange `_execute_payload`, the session
batching state, envelope construction via `uuid.uuid4()`, the domain command
wrappers and `adjust_brightness`.
-/

namespace Lightsc

/-- JSON values as produced by `json.loads` / consumed by `json.dumps`.
Numbers are modelled as rationals. -/
inductive Json where
  | null
  | bool (b : Bool)
  | num (q : ℚ)
  | str (s : String)
  | arr (elems : List Json)
  | obj (fields : List (String × Json))

/-- Python dict subscript `d[k]` on a decoded JSON object: the value bound to
the key, `none` when the key is absent (a `KeyError` in Python). -/
def objGet (fields : List (String × Json)) (k : String) : Option Json :=
  (fields.find? (fun kv => kv.1 == k)).map (fun kv => kv.2)

/-- Python-level exceptions relevant to the embedded code paths.  The client
defines no exception classes of its own (no `RpcError`, `MalformedResponseError`
or `StateError` exist anywhere in `src/examples/lightsc.py`); the only failure
the transport path can raise is a socket-level exception out of
`socket.send` / `socket.recv`. -/
inductive PyExn where
  | socketError

/-- Outcome of the socket exchange inside `_execute_payload`
(`src/examples/lightsc.py` lines 63-72): either `send`/`recv` raised a socket
exception, or `recv` returned the text `raw`, with `parsed` the verdict of
`json.loads raw` (`some j` when the text parses to the JSON value `j`, `none`
when it does not parse).  The JSON grammar itself is not embedded; the parse
verdict is supplied as data alongside the raw text. -/
inductive RecvOutcome where
  | exn
  | ok (parsed : Option Json) (raw : String)

/-- Embeds `LightsClient._execute_payload` (lines 63-72): sends the payload,
does one `recv`, then tries `json.loads`.  The `except` branch only prints
("received invalid json: ...") and falls through, so on parse failure the
method returns the raw received text (a Python `str`) as if it were the reply. -/
def execute_payload (recv : RecvOutcome) : Except PyExn Json :=
  match recv with
  | .exn => .error .socketError
  | .ok parsed raw =>
    match parsed with
    | some j => .ok j
    | none => .ok (.str raw)

/-- Embeds the single fixed-size read `self._socket.recv(8192)` (line 66)
against a peer whose reply bytes arrived in several TCP chunks that have not
been coalesced yet: one `recv` call returns only the first pending chunk.
The code performs exactly one such read per exchange (the source itself carries
the comment "FIXME: proper read loop" at line 65). -/
def recvOnce (chunks : List String) : String := chunks.headD ""

/-- Lowercase hexadecimal digit character, as produced by Python string
formatting with the `x` conversion (digits `0`-`9` then `a`-`f`). -/
def hexChar (n : Nat) : Char :=
  if n < 10 then Char.ofNat (48 + n) else Char.ofNat (87 + n)

/-- Value of a lowercase hexadecimal digit character (partial inverse of
`hexChar`, used only in proofs). -/
def hexVal (c : Char) : Nat :=
  if c.toNat ≥ 97 then c.toNat - 87 else c.toNat - 48

/-- Fixed-width big-endian lowercase hexadecimal digits of `n`, as produced by
the Python format `'%032x' % n` when the width is 32. -/
def hexDigits : Nat → Nat → List Char
  | 0, _ => []
  | w + 1, n => hexDigits w (n / 16) ++ [hexChar (n % 16)]

/-- The dash layout of `str(uuid.UUID(...))` in CPython's `uuid.py`:
`'%s-%s-%s-%s-%s' % (hex[:8], hex[8:12], hex[12:16], hex[16:20], hex[20:])`. -/
def insertDashes (l : List Char) : List Char :=
  l.take 8 ++ '-' :: ((l.drop 8).take 4 ++ '-' :: ((l.drop 12).take 4 ++
    '-' :: ((l.drop 16).take 4 ++ '-' :: l.drop 20)))

/-- The 128-bit integer of `uuid.uuid4()` in CPython's `uuid.py`: 16 random
bytes interpreted as an integer `r < 2^128`, with the variant bits forced to
`10` (`int &= ~(0xc000 << 48); int |= 0x8000 << 48`) and the version nibble
forced to `4` (`int &= ~(0xf000 << 64); int |= 4 << 76`).  Python's `~mask`
on these nonnegative masks acts on the low 128 bits as `2^128 - 1 - mask`. -/
def uuid4Int (r : Nat) : Nat :=
  (((r &&& (2 ^ 128 - 1 - (0xc000 <<< 48))) ||| (0x8000 <<< 48))
    &&& (2 ^ 128 - 1 - (0xf000 <<< 64))) ||| (4 <<< 76)

/-- `str(uuid.uuid4())` for the raw 128-bit random draw `r`: the 32 lowercase
hex digits of the masked integer, in the 8-4-4-4-12 dashed layout. -/
def uuid4Str (r : Nat) : String := String.mk (insertDashes (hexDigits 32 (uuid4Int r)))

/-- A JSON-RPC request envelope as built by `LightsClient._make_payload`
(lines 54-61). -/
structure Payload where
  method : String
  params : Json
  jsonrpc : String
  id : String

/-- Embeds `LightsClient._make_payload` (lines 54-61); `r` is the raw 128-bit
draw that `uuid.uuid4()` makes for this request. -/
def make_payload (method : String) (params : Json) (r : Nat) : Payload :=
  { method := method, params := params, jsonrpc := "2.0", id := uuid4Str r }

/-- The mutable session state of a `LightsClient` instance: the pending list
`self._pipeline` and the flag `self._batch` (lines 45-46; `__init__` sets
`pipeline = []`, `batch = False`). -/
structure ClientState where
  pipeline : List Payload
  batch : Bool

/-- Embeds `LightsClient._jsonrpc_call` (lines 74-79): build the payload; in
batch mode append it to the pipeline and return Python `None` (modelled as
`Option.none`); otherwise execute it immediately and return the reply. -/
def jsonrpc_call (st : ClientState) (method : String) (params : Json) (r : Nat)
    (recv : RecvOutcome) : ClientState × Except PyExn (Option Json) :=
  let payload := make_payload method params r
  if st.batch then
    ({ st with pipeline := st.pipeline ++ [payload] }, .ok none)
  else
    (st, (execute_payload recv).map some)

/-- Embeds the entry of the `batch` context manager (lines 84-88): it executes
`self._batch = True` unconditionally — there is no check that the session is
not already batching, no exception is raised, and the pipeline is left as it
was. -/
def begin_batch (st : ClientState) : ClientState × Except PyExn Unit :=
  ({ st with batch := true }, .ok ())

/-- Embeds the exit of the `batch` context manager (lines 89-95): set
`self._batch = False`, execute the pipeline as one payload, extend the
response with the reply (as a list if the reply is a JSON array, else as the
lone element), and finally reset `self._pipeline = []`.  When
`_execute_payload` raises, the statements after it — including the
`self._pipeline = []` reset — do not run. -/
def end_batch (st : ClientState) (recv : RecvOutcome) :
    ClientState × Except PyExn (List Json) :=
  let st1 := { st with batch := false }
  match execute_payload recv with
  | .error e => (st1, .error e)
  | .ok result =>
    let response := match result with
      | .arr xs => xs
      | other => [other]
    ({ st1 with pipeline := [] }, .ok response)

/-- Embeds `LightsClient.set_light_from_hsbk` (lines 97-100): the method name
and params value handed to `_jsonrpc_call`. -/
def set_light_from_hsbk (target h s b k t : Json) : String × Json :=
  ("set_light_from_hsbk", .arr [target, h, s, b, k, t])

/-- Embeds `LightsClient.set_waveform` (lines 102-107). -/
def set_waveform (target wf h s b k period cycles sk tr : Json) : String × Json :=
  ("set_waveform", .arr [target, wf, h, s, b, k, period, cycles, sk, tr])

/-- Embeds `LightsClient.power_on` (lines 157-158). -/
def power_on (target : Json) : String × Json :=
  ("power_on", .obj [("target", target)])

/-- Embeds `LightsClient.power_off` (lines 160-161). -/
def power_off (target : Json) : String × Json :=
  ("power_off", .obj [("target", target)])

/-- Embeds `LightsClient.power_toggle` (lines 163-164). -/
def power_toggle (target : Json) : String × Json :=
  ("power_toggle", .obj [("target", target)])

/-- Embeds `LightsClient.get_light_state` (lines 166-167). -/
def get_light_state (target : Json) : String × Json :=
  ("get_light_state", .arr [target])

/-- Embeds `LightsClient.tag` (lines 169-170). -/
def tag (target t : Json) : String × Json :=
  ("tag", .arr [target, t])

/-- Embeds `LightsClient.untag` (lines 172-173). -/
def untag (target t : Json) : String × Json :=
  ("untag", .arr [target, t])

/-- Embeds `LightsClient.set_label` (lines 175-176). -/
def set_label (target label : Json) : String × Json :=
  ("set_label", .arr [target, label])

/-- Python's two-argument `min` on numbers: the first argument when it is
less than or equal to the second. -/
def pymin (x y : ℚ) : ℚ := if x ≤ y then x else y

/-- Python's two-argument `max` on numbers: the first argument when it is
greater than or equal to the second. -/
def pymax (x y : ℚ) : ℚ := if x ≥ y then x else y

/-- The numeric reading of a decoded JSON value under Python arithmetic:
`json.loads` maps JSON numbers to `int`/`float` and `true`/`false` to `bool`,
and `bool` is an `int` subclass (`True` is 1, `False` is 0), so both kinds
support `+` with the float adjustment; `null`, strings, lists and mappings
raise `TypeError` there. -/
def asPyNumber : Json → Option ℚ
  | .num q => some q
  | .bool b => some (cond b 1 0)
  | _ => none

/-- Embeds one iteration of the `adjust_brightness` loop body (lines 181-183)
on the decoded bulb entry: unpack `h, s, b, k = bulb["hsbk"]`, recompute
`b = max(min(b + adjustment, 1.0), 0.0)`, and issue
`set_light_from_hsbk(bulb["label"], h, s, b, k, 500)`.  `none` models the
uncaught Python exception raised when the entry is not a mapping, lacks an
`"hsbk"` key, the hsbk value is not an array of exactly four elements, the
brightness component is not numeric in Python's sense (see `asPyNumber`:
booleans are numeric, so a `true` brightness is written, not an error), or
the `"label"` key is missing. -/
def adjustDevice (adj : ℚ) (bulb : Json) : Option (String × Json) :=
  match bulb with
  | .obj fields =>
    match objGet fields "hsbk" with
    | some (.arr [h, s, bv, k]) =>
      match asPyNumber bv with
      | some b =>
        match objGet fields "label" with
        | some lbl =>
          some (set_light_from_hsbk lbl h s (.num (pymax (pymin (b + adj) 1) 0)) k (.num 500))
        | none => none
      | none => none
    | _ => none
  | _ => none

/-- The `for bulb in bulbs` loop of `adjust_brightness` (lines 180-183):
returns the `set_light_from_hsbk` calls issued, in order, and whether the loop
ran to completion (`false` models an uncaught Python exception; the writes
already issued before the failing iteration stand). -/
def adjustLoop (adj : ℚ) : List Json → List (String × Json) × Bool
  | [] => ([], true)
  | bulb :: rest =>
    match adjustDevice adj bulb with
    | none => ([], false)
    | some w =>
      let r := adjustLoop adj rest
      (w :: r.1, r.2)

/-- Embeds `LightsClient.adjust_brightness` (lines 178-183) applied to the
already-received `get_light_state` reply: `bulbs = reply["result"]`, then the
per-bulb loop.  Returns the `set_light_from_hsbk` calls issued, in order, and
whether the method ran to completion; `false` models an uncaught Python
exception (`TypeError`/`KeyError`/`ValueError`).  A reply that is not a JSON
object raises `TypeError` at the subscript, and one lacking a `"result"` key
raises `KeyError`, in both cases before the loop with no write issued.  For
the decoded `"result"` value itself: an array drives the loop; a string or a
mapping is iterable, yielding string elements (characters resp. keys), so an
empty one iterates zero times and the method returns normally while a
non-empty one raises `TypeError` at `bulb["hsbk"]` on the first element,
before any write; a number, boolean or `null` raises `TypeError` at the
`for`. -/
def adjustBrightnessRun (reply : Json) (adj : ℚ) : List (String × Json) × Bool :=
  match reply with
  | .obj fields =>
    match objGet fields "result" with
    | some (.arr bulbs) => adjustLoop adj bulbs
    | some (.str s) => ([], s.isEmpty)
    | some (.obj kvs) => ([], kvs.isEmpty)
    | some _ => ([], false)
    | none => ([], false)
  | _ => ([], false)

/-- The per-device state shape that `adjust_brightness` expects in the
`get_light_state` reply: a mapping with an `"hsbk"` array of four components
(numeric brightness) and a `"label"`. -/
structure BulbState where
  label : Json
  hue : Json
  sat : Json
  bright : ℚ
  kelvin : Json

/-- A well-shaped device entry of a `get_light_state` reply. -/
def mkBulb (d : BulbState) : Json :=
  .obj [("hsbk", .arr [d.hue, d.sat, .num d.bright, d.kelvin]), ("label", d.label)]

/-- Remove the dash separators of a uuid string (proof tool: hex digits are
never the dash character, so this recovers the digit list). -/
def stripDashes (l : List Char) : List Char := l.filter (fun c => !(c == '-'))

/-- Read a hexadecimal digit list back into a number, starting from the
accumulator `a` (proof tool: left inverse of `hexDigits`). -/
def fromHexAux (a : Nat) (l : List Char) : Nat :=
  l.foldl (fun acc c => 16 * acc + hexVal c) a

/-- One loop iteration of `adjust_brightness` on a well-shaped device entry. -/
theorem adjustDevice_mkBulb (adj : ℚ) (d : BulbState) :
    adjustDevice adj (mkBulb d)
      = some (set_light_from_hsbk d.label d.hue d.sat
          (.num (pymax (pymin (d.bright + adj) 1) 0)) d.kelvin (.num 500)) := rfl

/-- The `adjust_brightness` loop over well-shaped device entries issues one
write per device, in order, and completes. -/
theorem adjustLoop_mkBulb (adj : ℚ) (devs : List BulbState) :
    adjustLoop adj (devs.map mkBulb)
      = (devs.map (fun d => set_light_from_hsbk d.label d.hue d.sat
          (.num (pymax (pymin (d.bright + adj) 1) 0)) d.kelvin (.num 500)), true) := by
  induction devs with
  | nil => rfl
  | cons d rest ih => simp [adjustLoop, adjustDevice_mkBulb, ih]

/-- C1: the claim says that after any end-of-batch — transport success or
transport failure — the session is back in single mode with an empty pending
list.  The code violates the second half: when `_execute_payload` raises
during the flush, the `self._pipeline = []` reset is skipped, so the batched
request is still pending afterwards (here: a one-request batch whose flush
raises a socket exception). -/
theorem c1_pending_survives_failed_flush :
    (end_batch { pipeline := [make_payload "power_on" (.obj [("target", .str "*")]) 0],
                 batch := true } .exn).1.batch = false ∧
    (end_batch { pipeline := [make_payload "power_on" (.obj [("target", .str "*")]) 0],
                 batch := true } .exn).1.pipeline
      = [make_payload "power_on" (.obj [("target", .str "*")]) 0] ∧
    (end_batch { pipeline := [make_payload "power_on" (.obj [("target", .str "*")]) 0],
                 batch := true } .exn).1.pipeline ≠ [] :=
  ⟨rfl, rfl, fun h => List.noConfusion h⟩

/-- C2: the claim says the end-of-batch matches each element of an array
reply to its originating request by `id`.  The code does no matching at all:
it returns the reply array exactly as received, so with two pending requests
and their two responses arriving in reversed order, the first returned result
is the response whose `id` is the id of the *second* request (and the two ids
differ), i.e. the pairing is positional, not by id. -/
theorem c2_batch_reply_not_matched_by_id :
    (end_batch { pipeline := [make_payload "power_on" (.obj [("target", .str "*")]) 0,
          make_payload "power_off" (.obj [("target", .str "*")]) 1], batch := true }
        (.ok (some (.arr [.obj [("id", .str (uuid4Str 1)), ("result", .bool false)],
          .obj [("id", .str (uuid4Str 0)), ("result", .bool true)]])) "")).2
      = .ok [.obj [("id", .str (uuid4Str 1)), ("result", .bool false)],
             .obj [("id", .str (uuid4Str 0)), ("result", .bool true)]] ∧
    objGet [("id", .str (uuid4Str 1)), ("result", .bool false)] "id"
      = some (.str (make_payload "power_off" (.obj [("target", .str "*")]) 1).id) ∧
    (make_payload "power_off" (.obj [("target", .str "*")]) 1).id
      ≠ (make_payload "power_on" (.obj [("target", .str "*")]) 0).id :=
  ⟨rfl, rfl, by decide⟩

/-- C3: the claim says a single-mode call unwraps the response envelope,
returning the bare `result` value and failing with `RpcError` on an `error`
member.  The code does neither: `_jsonrpc_call` returns the decoded envelope
itself, so for the reply `\x7b"id": "X", "result": 42\x7d` the caller receives
the whole object rather than `42`, and for an error reply the call returns the
envelope normally instead of failing (no `RpcError` class exists in the
source). -/
theorem c3_call_returns_envelope_not_result :
    (jsonrpc_call { pipeline := [], batch := false } "get_light_state" (.arr [.str "*"]) 0
        (.ok (some (.obj [("id", .str "X"), ("result", .num 42)])) "")).2
      = .ok (some (.obj [("id", .str "X"), ("result", .num 42)])) ∧
    (Except.ok (some (Json.obj [("id", .str "X"), ("result", .num 42)])) :
        Except PyExn (Option Json)) ≠ .ok (some (.num 42)) ∧
    (jsonrpc_call { pipeline := [], batch := false } "get_light_state" (.arr [.str "*"]) 0
        (.ok (some (.obj [("id", .str "X"),
          ("error", .obj [("code", .num (-1)), ("message", .str "boom")])])) "")).2
      = .ok (some (.obj [("id", .str "X"),
          ("error", .obj [("code", .num (-1)), ("message", .str "boom")])])) :=
  ⟨rfl,
   by intro h; injection h with h1; injection h1 with h2; exact Json.noConfusion h2,
   rfl⟩

/-- C4: the claim says the transport reads repeatedly until a complete JSON
value has been assembled, so a reply split across three socket writes is
still returned whole.  The code performs a single `recv` (line 66, marked
"FIXME: proper read loop" in the source): it sees only the first chunk,
`json.loads` fails on that fragment, and `_execute_payload` hands the
fragment back as raw text instead of the assembled object. -/
theorem c4_single_recv_truncates :
    recvOnce ["\x7b\"id\": \"X\", ", "\"result\": ", "42\x7d"] = "\x7b\"id\": \"X\", " ∧
    recvOnce ["\x7b\"id\": \"X\", ", "\"result\": ", "42\x7d"]
      ≠ String.join ["\x7b\"id\": \"X\", ", "\"result\": ", "42\x7d"] ∧
    execute_payload (.ok none (recvOnce ["\x7b\"id\": \"X\", ", "\"result\": ", "42\x7d"]))
      = .ok (.str "\x7b\"id\": \"X\", ") :=
  ⟨rfl, by decide, rfl⟩

/-- C5: the claim says a reply that does not parse as JSON makes the exchange
fail with a typed `MalformedResponseError` carrying the raw payload, never
handing the unparsed text back as a valid reply.  The code catches the
`json.loads` failure, prints a diagnostic, and returns the raw text to the
caller as the reply; nothing is raised (the embedding has no
malformed-response failure because the source defines no such class). -/
theorem c5_parse_failure_returned_as_reply :
    execute_payload (.ok none "not json") = .ok (.str "not json") ∧
    execute_payload (.ok none "not json") ≠ .error .socketError :=
  ⟨rfl, fun h => Except.noConfusion h⟩

/-- C6: the claim says a second begin-of-batch on an already-batching session
fails with `StateError`.  The code's `batch` context manager begins by
executing `self._batch = True` unconditionally: on an already-batching
session it succeeds, leaves the same pending list in place, and a subsequent
call keeps accumulating into that same list (no `StateError` class exists in
the source). -/
theorem c6_nested_begin_batch_succeeds :
    (begin_batch { pipeline := [make_payload "power_on" (.obj [("target", .str "*")]) 0],
                   batch := true }).2 = .ok () ∧
    (begin_batch { pipeline := [make_payload "power_on" (.obj [("target", .str "*")]) 0],
                   batch := true }).1.batch = true ∧
    (jsonrpc_call (begin_batch { pipeline := [make_payload "power_on"
                                   (.obj [("target", .str "*")]) 0],
                                 batch := true }).1
        "power_off" (.obj [("target", .str "*")]) 1 (.ok none "")).1.pipeline
      = [make_payload "power_on" (.obj [("target", .str "*")]) 0,
         make_payload "power_off" (.obj [("target", .str "*")]) 1] :=
  ⟨rfl, rfl, rfl⟩

/-- C9: each domain command wrapper hands `_jsonrpc_call` exactly the method
name and params value of the catalogue: positional lists for
`set_light_from_hsbk`, `set_waveform`, `get_light_state`, `tag`, `untag` and
`set_label`, and the named mapping with the sole key `"target"` for the three
power methods. -/
theorem c9_wrapper_params_match_catalogue :
    (∀ target h s b k t : Json,
      set_light_from_hsbk target h s b k t
        = ("set_light_from_hsbk", .arr [target, h, s, b, k, t])) ∧
    (∀ target wf h s b k period cycles sk tr : Json,
      set_waveform target wf h s b k period cycles sk tr
        = ("set_waveform", .arr [target, wf, h, s, b, k, period, cycles, sk, tr])) ∧
    (∀ target : Json, power_on target = ("power_on", .obj [("target", target)])) ∧
    (∀ target : Json, power_off target = ("power_off", .obj [("target", target)])) ∧
    (∀ target : Json, power_toggle target = ("power_toggle", .obj [("target", target)])) ∧
    (∀ target : Json, get_light_state target = ("get_light_state", .arr [target])) ∧
    (∀ target t : Json, tag target t = ("tag", .arr [target, t])) ∧
    (∀ target t : Json, untag target t = ("untag", .arr [target, t])) ∧
    (∀ target label : Json, set_label target label = ("set_label", .arr [target, label])) :=
  ⟨fun _ _ _ _ _ _ => rfl, fun _ _ _ _ _ _ _ _ _ _ => rfl, fun _ => rfl, fun _ => rfl,
   fun _ => rfl, fun _ => rfl, fun _ _ => rfl, fun _ _ => rfl, fun _ _ => rfl⟩

/-- C7: for every well-shaped device of the `get_light_state` reply,
`adjust_brightness` issues exactly one `set_light_from_hsbk` per device, in
order, whose brightness is `max(min(current + delta, 1.0), 0.0)` while the
device's hue, saturation and kelvin are passed through unchanged and the
duration is 500; in particular `adjust_brightness("bulb1", 0.2)` on the state
with `hue 0, sat 0, bright 0.9, kelvin 3500, label "bulb1"` issues
`set_light_from_hsbk("bulb1", 0, 0, 1.0, 3500, 500)`. -/
theorem c7_adjust_brightness_clamps_and_preserves (devs : List BulbState) (adj : ℚ) :
    adjustBrightnessRun (.obj [("result", .arr (devs.map mkBulb))]) adj
      = (devs.map (fun d => set_light_from_hsbk d.label d.hue d.sat
          (.num (pymax (pymin (d.bright + adj) 1) 0)) d.kelvin (.num 500)), true) ∧
    adjustBrightnessRun
        (.obj [("result", .arr [mkBulb ⟨.str "bulb1", .num 0, .num 0, 9/10, .num 3500⟩])])
        (2/10)
      = ([set_light_from_hsbk (.str "bulb1") (.num 0) (.num 0) (.num 1) (.num 3500)
            (.num 500)], true) := by
  constructor
  · exact adjustLoop_mkBulb adj devs
  · show adjustLoop (2/10)
        [mkBulb ⟨.str "bulb1", .num 0, .num 0, 9/10, .num 3500⟩] = _
    rw [show [mkBulb ⟨Json.str "bulb1", Json.num 0, Json.num 0, 9/10, Json.num 3500⟩]
          = List.map mkBulb [⟨.str "bulb1", .num 0, .num 0, 9/10, .num 3500⟩] from rfl,
        adjustLoop_mkBulb]
    norm_num [pymin, pymax]

/-- C10 counterexample: the claim says that for any reply not of the expected
shape, `adjust_brightness` fails before issuing any write.  With a reply whose
`"result"` list holds one well-shaped device followed by one malformed device,
the code issues the write for the first device and only then hits the
exception: the issued-write list at the failure is not empty. -/
theorem c10_counterexample_write_before_failure :
    adjustBrightnessRun
        (.obj [("result",
          .arr [mkBulb ⟨.str "a", .num 0, .num 0, 1/2, .num 3500⟩, .obj []])]) (1/10)
      = ([set_light_from_hsbk (.str "a") (.num 0) (.num 0)
            (.num (pymax (pymin (1/2 + 1/10) 1) 0)) (.num 3500) (.num 500)], false) ∧
    ([set_light_from_hsbk (.str "a") (.num 0) (.num 0)
        (.num (pymax (pymin (1/2 + 1/10) 1) 0)) (.num 3500) (.num 500)]
      : List (String × Json)) ≠ [] :=
  ⟨rfl, fun h => List.noConfusion h⟩

/-- C10 (amended): `adjust_brightness` is partial at the public interface —
it requires the reply to be a mapping with a `"result"` key holding an
iterable of devices, each with a `"label"` key and an `"hsbk"` value of
exactly four components, and on a reply not of this shape it fails with an
untyped exception (key/type/unpacking error) rather than returning or
raising a typed RPC failure; but the failure precedes any write only when
the defect is at the top level (an error envelope without `"result"`, or an
unparseable reply passed through as raw text), while a device on which the
loop body raises, sitting after a well-shaped prefix of the list, is reached
only after the writes for that prefix have been issued.  (A boolean
brightness component is numeric to Python, so such a device is written
normally rather than treated as malformed.) -/
theorem c10_adjust_brightness_partiality (fields : List (String × Json)) (s : String)
    (adj : ℚ) (good : List BulbState) (bad : Json) (rest : List Json)
    (hres : objGet fields "result" = none) (hbad : adjustDevice adj bad = none) :
    adjustBrightnessRun (.obj fields) adj = ([], false) ∧
    adjustBrightnessRun (.str s) adj = ([], false) ∧
    adjustBrightnessRun (.obj [("result", .arr (good.map mkBulb ++ bad :: rest))]) adj
      = (good.map (fun d => set_light_from_hsbk d.label d.hue d.sat
          (.num (pymax (pymin (d.bright + adj) 1) 0)) d.kelvin (.num 500)), false) ∧
    adjustBrightnessRun (.obj [("result", .arr [.obj [("hsbk",
          .arr [.num 0, .num 0, .bool true, .num 3500]), ("label", .str "x")]])]) adj
      = ([set_light_from_hsbk (.str "x") (.num 0) (.num 0)
            (.num (pymax (pymin (1 + adj) 1) 0)) (.num 3500) (.num 500)], true) := by
  refine ⟨?_, rfl, ?_, rfl⟩
  · simp [adjustBrightnessRun, hres]
  · show adjustLoop adj (good.map mkBulb ++ bad :: rest) = _
    induction good with
    | nil => simp [adjustLoop, hbad]
    | cons d ds ih => simp [adjustLoop, adjustDevice_mkBulb, ih]

/-- C10 witness: the amended statement at a concrete input — an error
envelope without a `"result"` key, the raw text reply "oops", a result list
whose first device is the malformed empty object, and a device whose
brightness is the boolean `true` (numeric to Python), which is written. -/
theorem c10_adjust_brightness_partiality_witness :
    adjustBrightnessRun (.obj [("error", Json.null)]) (1/10) = ([], false) ∧
    adjustBrightnessRun (.str "oops") (1/10) = ([], false) ∧
    adjustBrightnessRun (.obj [("result", .arr [.obj []])]) (1/10) = ([], false) ∧
    adjustBrightnessRun (.obj [("result", .arr [.obj [("hsbk",
          .arr [.num 0, .num 0, .bool true, .num 3500]), ("label", .str "x")]])]) (1/10)
      = ([set_light_from_hsbk (.str "x") (.num 0) (.num 0)
            (.num (pymax (pymin (1 + 1/10) 1) 0)) (.num 3500) (.num 500)], true) :=
  c10_adjust_brightness_partiality [("error", Json.null)] "oops" (1/10) [] (.obj [])
    [] rfl rfl

/-- `hexVal` inverts `hexChar` on digit values. -/
theorem hexVal_hexChar : ∀ n < 16, hexVal (hexChar n) = n := by decide

/-- Hex digit characters are never the dash separator. -/
theorem hexChar_ne_dash : ∀ n < 16, hexChar n ≠ '-' := by decide

/-- Every character of a fixed-width hex rendering is a hex digit, hence not
a dash. -/
theorem mem_hexDigits_ne_dash :
    ∀ (w n : Nat) (c : Char), c ∈ hexDigits w n → c ≠ '-' := by
  intro w
  induction w with
  | zero => intro n c hc; simp [hexDigits] at hc
  | succ w ih =>
    intro n c hc
    simp only [hexDigits, List.mem_append, List.mem_singleton] at hc
    rcases hc with h | h
    · exact ih _ _ h
    · subst h; exact hexChar_ne_dash _ (Nat.mod_lt _ (by norm_num))

/-- Reading back a fixed-width hex rendering recovers the rendered number. -/
theorem fromHexAux_hexDigits :
    ∀ (w : Nat), ∀ n < 16 ^ w, ∀ a : Nat, fromHexAux a (hexDigits w n) = a * 16 ^ w + n := by
  intro w
  induction w with
  | zero =>
    intro n hn a
    have h0 : n = 0 := Nat.lt_one_iff.mp hn
    subst h0
    simp [fromHexAux, hexDigits]
  | succ w ih =>
    intro n hn a
    have hdiv : n / 16 < 16 ^ w := by
      rw [Nat.div_lt_iff_lt_mul (by norm_num : (0:ℕ) < 16)]
      rw [pow_succ] at hn
      exact hn
    calc fromHexAux a (hexDigits (w + 1) n)
        = 16 * fromHexAux a (hexDigits w (n / 16)) + hexVal (hexChar (n % 16)) := by
          simp [hexDigits, fromHexAux, List.foldl_append]
      _ = 16 * (a * 16 ^ w + n / 16) + n % 16 := by
          rw [ih _ hdiv, hexVal_hexChar _ (Nat.mod_lt _ (by norm_num))]
      _ = a * 16 ^ (w + 1) + (16 * (n / 16) + n % 16) := by rw [pow_succ]; ring
      _ = a * 16 ^ (w + 1) + n := by rw [Nat.div_add_mod]

/-- Distinct numbers below `16^32` have distinct 32-wide hex renderings. -/
theorem hexDigits_inj {m n : Nat} (hm : m < 16 ^ 32) (hn : n < 16 ^ 32)
    (h : hexDigits 32 m = hexDigits 32 n) : m = n := by
  have h1 := fromHexAux_hexDigits 32 m hm 0
  have h2 := fromHexAux_hexDigits 32 n hn 0
  rw [h] at h1
  simp only [Nat.zero_mul, Nat.zero_add] at h1 h2
  rw [h1] at h2
  exact h2

/-- `stripDashes` distributes over append. -/
theorem stripDashes_append (a b : List Char) :
    stripDashes (a ++ b) = stripDashes a ++ stripDashes b :=
  List.filter_append ..

/-- `stripDashes` drops a leading dash. -/
theorem stripDashes_dash_cons (l : List Char) : stripDashes ('-' :: l) = stripDashes l := rfl

/-- `stripDashes` keeps a dash-free list unchanged. -/
theorem stripDashes_of_no_dash (l : List Char) (h : ∀ c ∈ l, c ≠ '-') :
    stripDashes l = l := by
  apply List.filter_eq_self.mpr
  intro c hc
  simpa using h c hc

/-- Removing the dashes of the 8-4-4-4-12 layout recovers the digit list. -/
theorem stripDashes_insertDashes (l : List Char) (h : ∀ c ∈ l, c ≠ '-') :
    stripDashes (insertDashes l) = l := by
  have hsub : ∀ m : List Char, m ⊆ l → ∀ c ∈ m, c ≠ '-' := fun m hm c hc => h c (hm hc)
  have h8 := stripDashes_of_no_dash (l.take 8) (hsub _ (List.take_subset 8 l))
  have h12 := stripDashes_of_no_dash ((l.drop 8).take 4)
    (hsub _ (fun c hc => List.drop_subset 8 l (List.take_subset 4 _ hc)))
  have h16 := stripDashes_of_no_dash ((l.drop 12).take 4)
    (hsub _ (fun c hc => List.drop_subset 12 l (List.take_subset 4 _ hc)))
  have h20 := stripDashes_of_no_dash ((l.drop 16).take 4)
    (hsub _ (fun c hc => List.drop_subset 16 l (List.take_subset 4 _ hc)))
  have hd20 := stripDashes_of_no_dash (l.drop 20) (hsub _ (List.drop_subset 20 l))
  have e20 : (l.drop 16).take 4 ++ l.drop 20 = l.drop 16 := by
    have := List.take_append_drop 4 (l.drop 16)
    rwa [List.drop_drop, show (4 + 16 : ℕ) = 20 by norm_num] at this
  have e16 : (l.drop 12).take 4 ++ l.drop 16 = l.drop 12 := by
    have := List.take_append_drop 4 (l.drop 12)
    rwa [List.drop_drop, show (4 + 12 : ℕ) = 16 by norm_num] at this
  have e12 : (l.drop 8).take 4 ++ l.drop 12 = l.drop 8 := by
    have := List.take_append_drop 4 (l.drop 8)
    rwa [List.drop_drop, show (4 + 8 : ℕ) = 12 by norm_num] at this
  calc stripDashes (insertDashes l)
      = l.take 8 ++ ((l.drop 8).take 4 ++ ((l.drop 12).take 4 ++
          ((l.drop 16).take 4 ++ l.drop 20))) := by
        simp only [insertDashes, stripDashes_append, stripDashes_dash_cons,
          h8, h12, h16, h20, hd20]
    _ = l := by rw [e20, e16, e12, List.take_append_drop]

/-- The masked uuid4 integer always fits in 128 bits. -/
theorem uuid4Int_lt (r : Nat) : uuid4Int r < 2 ^ 128 := by
  unfold uuid4Int
  apply Nat.or_lt_two_pow
  · exact lt_of_le_of_lt Nat.and_le_right (by decide)
  · decide

/-- A uuid4 string is never empty (it always carries its dashes). -/
theorem uuid4Str_ne_empty (r : Nat) : uuid4Str r ≠ "" := by
  intro h
  have hd : insertDashes (hexDigits 32 (uuid4Int r)) = [] := congrArg String.data h
  rcases List.append_eq_nil.mp hd with ⟨-, h2⟩
  exact List.noConfusion h2

/-- Distinct masked uuid4 integers render to distinct uuid strings. -/
theorem uuid4Str_inj {r1 r2 : Nat} (h : uuid4Int r1 ≠ uuid4Int r2) :
    uuid4Str r1 ≠ uuid4Str r2 := by
  intro he
  apply h
  have hd : insertDashes (hexDigits 32 (uuid4Int r1))
      = insertDashes (hexDigits 32 (uuid4Int r2)) := congrArg String.data he
  have h1 := stripDashes_insertDashes (hexDigits 32 (uuid4Int r1))
    (fun c hc => mem_hexDigits_ne_dash _ _ _ hc)
  have h2 := stripDashes_insertDashes (hexDigits 32 (uuid4Int r2))
    (fun c hc => mem_hexDigits_ne_dash _ _ _ hc)
  have hdig : hexDigits 32 (uuid4Int r1) = hexDigits 32 (uuid4Int r2) := by
    rw [← h1, ← h2, hd]
  have hpow : (16 : ℕ) ^ 32 = 2 ^ 128 := by norm_num
  exact hexDigits_inj (hpow ▸ uuid4Int_lt r1) (hpow ▸ uuid4Int_lt r2) hdig

/-- C8: `_make_payload` builds the envelope with exactly the given method and
params, the protocol field `jsonrpc = "2.0"`, and the id `str(uuid.uuid4())`,
which is never empty; two envelopes whose raw uuid4 draws differ after the
version- and variant-bit masking carry distinct ids — per-session uniqueness
of ids is exactly uniqueness of the masked 122 random bits of the draws. -/
theorem c8_envelope_wellformed (method m2 : String) (params p2 : Json) (r1 r2 : Nat)
    (hne : uuid4Int r1 ≠ uuid4Int r2) :
    (make_payload method params r1).method = method ∧
    (make_payload method params r1).params = params ∧
    (make_payload method params r1).jsonrpc = "2.0" ∧
    (make_payload method params r1).id ≠ "" ∧
    (make_payload method params r1).id ≠ (make_payload m2 p2 r2).id :=
  ⟨rfl, rfl, rfl, uuid4Str_ne_empty r1, uuid4Str_inj hne⟩

/-- C8 witness: the envelope facts at the concrete draws 0 and 1, whose
masked uuid4 integers differ. -/
theorem c8_envelope_wellformed_witness :
    (make_payload "power_on" (.obj [("target", .str "*")]) 0).method = "power_on" ∧
    (make_payload "power_on" (.obj [("target", .str "*")]) 0).params
      = .obj [("target", .str "*")] ∧
    (make_payload "power_on" (.obj [("target", .str "*")]) 0).jsonrpc = "2.0" ∧
    (make_payload "power_on" (.obj [("target", .str "*")]) 0).id ≠ "" ∧
    (make_payload "power_on" (.obj [("target", .str "*")]) 0).id
      ≠ (make_payload "power_off" (.obj [("target", .str "*")]) 1).id :=
  c8_envelope_wellformed "power_on" "power_off" (.obj [("target", .str "*")])
    (.obj [("target", .str "*")]) 0 1 (by decide)

end Lightsc
